import Mathlib

/-!
Shallow embedding of the recording/analysis application:
the VideoRecorder component (recording lifecycle state machine),
the ImageAnalyzer component (image analysis widget), and the
error-classification logic of the Gemini service wrapper.
Browser resources (media streams with their tracks, object URLs,
the one-shot auto-stop timeout, the MediaRecorder, and the pending
onstop callbacks) are modelled explicitly in a single world state, so
that resource-lifetime claims (release of tracks, revocation of URLs)
are statable.
-/

/-- Lifecycle states of the recorder component (RecordingStatus in the source). -/
inductive RecStatus where
  | idle
  | permissionPending
  | ready
  | recording
  | finished
deriving DecidableEq, Repr

/-- State of a MediaRecorder: inactive or recording. -/
inductive MRecSt where
  | inactive
  | recording
deriving DecidableEq, Repr

/-- A MediaRecorder instance: the index of the stream it captures and its state. -/
structure MRec where
  streamIdx : Nat
  st : MRecSt
deriving DecidableEq, Repr

/-- A JavaScript number as the duration field uses it: an integer or NaN
(Math.max(1, parseInt(value, 10)) yields NaN on a non-parsable string). -/
inductive JSNum where
  | num (n : Int)
  | nan
deriving DecidableEq, Repr

/-- The comparison duration > 0 in JavaScript semantics: NaN > 0 is false. -/
def JSNum.gtZero : JSNum → Bool
  | .num n => decide (0 < n)
  | .nan => false

/-- Whether a stored duration is at least 1 (NaN is not). -/
def JSNum.geOne : JSNum → Bool
  | .num n => decide (1 ≤ n)
  | .nan => false

/-- The two getUserMedia constraint sets the component ever sends:
the primary request (facingMode environment camera plus audio) and the
fallback request (any video plus audio). -/
inductive GUMRequest where
  | envFacingAudio
  | anyVideoAudio
deriving DecidableEq, Repr

/-- The world state: the React state and refs of the VideoRecorder component
together with the browser resources it manipulates. Streams are kept in an
acquisition ledger (each a list of track-liveness flags, true = live);
object URLs in a creation ledger (flag true = revoked). -/
structure World where
  status : RecStatus
  mediaStream : Option Nat
  recordedVideoUrl : Option Nat
  error : Option String
  duration : JSNum
  elapsedTime : Nat
  mediaRecorder : Option MRec
  recordedChunks : List Nat
  timer : Option Nat
  stopwatch : Bool
  now : Nat
  acquired : List (List Bool)
  urls : List Bool
  gumLog : List GUMRequest
  stopsIssued : Nat
  pendingOnStop : Nat
  finalizeCount : Nat
  artifacts : List (List Nat)
deriving DecidableEq, Repr

/-- The component as first mounted: idle, no stream, default duration 1. -/
def initWorld : World :=
  { status := .idle, mediaStream := none, recordedVideoUrl := none, error := none,
    duration := .num 1, elapsedTime := 0, mediaRecorder := none, recordedChunks := [],
    timer := none, stopwatch := false, now := 0, acquired := [], urls := [],
    gumLog := [], stopsIssued := 0, pendingOnStop := 0, finalizeCount := 0,
    artifacts := [] }

/-- Stop every track of the stream at index i in the acquisition ledger. -/
def stopTracksAt : List (List Bool) → Nat → List (List Bool)
  | [], _ => []
  | s :: rest, 0 => s.map (fun _ => false) :: rest
  | s :: rest, n + 1 => s :: stopTracksAt rest n

/-- Revoke the object URL at index u in the URL ledger. -/
def revokeAt : List Bool → Nat → List Bool
  | [], _ => []
  | _ :: rest, 0 => true :: rest
  | b :: rest, n + 1 => b :: revokeAt rest n

/-- The error message handleRequestPermission surfaces when both
getUserMedia attempts fail. -/
def permissionErrorMsg : String :=
  "Could not access camera and microphone. Please check permissions in your browser settings."

/-- handleRequestPermission. The platform outcomes of the primary
(environment camera plus audio) and fallback (any camera plus audio)
requests are parameters: some tracks is a granted stream with those
tracks, none is a rejection. The fallback request is only issued when the
primary one is rejected, mirroring the try/catch in the source. -/
def handleRequestPermission (w : World) (primary fallback : Option (List Bool)) : World :=
  let w0 := { w with status := RecStatus.permissionPending, error := none }
  match primary with
  | some tracks =>
      { w0 with gumLog := w0.gumLog ++ [GUMRequest.envFacingAudio],
                acquired := w0.acquired ++ [tracks],
                mediaStream := some w0.acquired.length,
                status := RecStatus.ready }
  | none =>
      let w1 := { w0 with gumLog := w0.gumLog ++ [GUMRequest.envFacingAudio] }
      match fallback with
      | some tracks =>
          { w1 with gumLog := w1.gumLog ++ [GUMRequest.anyVideoAudio],
                    acquired := w1.acquired ++ [tracks],
                    mediaStream := some w1.acquired.length,
                    status := RecStatus.ready }
      | none =>
          { w1 with gumLog := w1.gumLog ++ [GUMRequest.anyVideoAudio],
                    error := some permissionErrorMsg,
                    status := RecStatus.idle }

/-- handleStopRecording: stops the recorder and clears the auto-stop
timeout, but only when a recorder exists and its state is recording.
Calling stop on the recorder synchronously moves it to inactive and
enqueues exactly one onstop (finalize) callback. -/
def handleStopRecording (w : World) : World :=
  match w.mediaRecorder with
  | some r =>
      if r.st = MRecSt.recording then
        { w with mediaRecorder := some { streamIdx := r.streamIdx, st := MRecSt.inactive },
                 stopsIssued := w.stopsIssued + 1,
                 pendingOnStop := w.pendingOnStop + 1,
                 timer := none }
      else w
  | none => w

/-- handleStartRecording: a no-op without a live stream; otherwise sets
status to recording, resets the chunk list, creates and starts a recorder,
starts the stopwatch (elapsedTime reset to 0), and, when duration > 0
(false for NaN), arms the one-shot auto-stop timeout for
duration * 60 * 1000 milliseconds from now. -/
def handleStartRecording (w : World) : World :=
  match w.mediaStream with
  | none => w
  | some i =>
      let w1 := { w with status := RecStatus.recording,
                         recordedChunks := [],
                         mediaRecorder := some { streamIdx := i, st := MRecSt.recording },
                         elapsedTime := 0,
                         stopwatch := true }
      match w1.duration with
      | .num n => if 0 < n then { w1 with timer := some (w1.now + n.toNat * 60 * 1000) } else w1
      | .nan => w1

/-- The ondataavailable handler: pushes a chunk onto the chunk list when
its size is positive. -/
def recorderOnDataAvailable (w : World) (size : Nat) : World :=
  if 0 < size then { w with recordedChunks := w.recordedChunks ++ [size] } else w

/-- The onstop (finalize) handler, delivered by the platform once per
issued stop: builds the blob from the accumulated chunks, creates an
object URL for it, moves to finished, stops the stopwatch, stops every
track of the captured stream, and clears the stored stream handle. -/
def recorderOnStop (w : World) : World :=
  if w.pendingOnStop = 0 then w
  else
    match w.mediaRecorder with
    | none => w
    | some r =>
        { w with recordedVideoUrl := some w.urls.length,
                 urls := w.urls ++ [false],
                 status := RecStatus.finished,
                 stopwatch := false,
                 acquired := stopTracksAt w.acquired r.streamIdx,
                 mediaStream := none,
                 pendingOnStop := w.pendingOnStop - 1,
                 finalizeCount := w.finalizeCount + 1,
                 artifacts := w.artifacts ++ [w.recordedChunks] }

/-- handleNewRecording: revokes the stored object URL when present, then
clears the stored URL, error and elapsed time and returns to idle. -/
def handleNewRecording (w : World) : World :=
  let w1 := match w.recordedVideoUrl with
            | some u => { w with urls := revokeAt w.urls u }
            | none => w
  { w1 with recordedVideoUrl := none,
            status := RecStatus.idle,
            error := none,
            elapsedTime := 0 }

/-- The auto-stop timeout firing: when a timeout is armed and its deadline
has been reached, the callback runs handleStopRecording; otherwise nothing
happens. -/
def autoStopTimerFire (w : World) : World :=
  match w.timer with
  | some t => if t ≤ w.now then handleStopRecording w else w
  | none => w

/-- One second of wall-clock time: the clock advances 1000 ms and the
stopwatch interval, when running, increments elapsedTime by one. -/
def tick (w : World) : World :=
  let w1 := { w with now := w.now + 1000 }
  if w1.stopwatch then { w1 with elapsedTime := w1.elapsedTime + 1 } else w1

/-- Value of a digit string in base 10. -/
def digitsToNat (ds : List Char) : Nat :=
  ds.foldl (fun a c => a * 10 + (c.toNat - 48)) 0

/-- JavaScript parseInt(s, 10): skip leading whitespace, read an optional
sign, then the longest digit run; none (NaN) when no digits follow. -/
def parseIntJS (s : String) : Option Int :=
  let cs := s.data.dropWhile Char.isWhitespace
  let signAndRest : Int × List Char :=
    match cs with
    | '-' :: r => (-1, r)
    | '+' :: r => (1, r)
    | r => (1, r)
  let ds := signAndRest.2.takeWhile Char.isDigit
  if ds.isEmpty then none else some (signAndRest.1 * (digitsToNat ds : Int))

/-- Math.max(1, x) on the parseInt result: NaN propagates. -/
def jsMaxOneParse (p : Option Int) : JSNum :=
  match p with
  | some n => .num (max 1 n)
  | none => .nan

/-- The onChange handler of the duration input:
setDuration(Math.max(1, parseInt(e.target.value, 10))). -/
def durationInputOnChange (w : World) (s : String) : World :=
  { w with duration := jsMaxOneParse (parseIntJS s) }

/-- Whether the character list needle occurs as a contiguous sublist of
the haystack (String.prototype.includes on the underlying characters). -/
def listContainsSub (needle : List Char) : List Char → Bool
  | [] => needle.isEmpty
  | c :: cs => needle.isPrefixOf (c :: cs) || listContainsSub needle cs

/-- JavaScript String.prototype.includes. -/
def strContains (needle haystack : String) : Bool :=
  listContainsSub needle.data haystack.data

/-- What the inner generateContent call can throw: a JavaScript Error
carrying a message, or a non-Error value. -/
inductive Thrown where
  | jsError (msg : String)
  | other
deriving DecidableEq, Repr

/-- The catch block of analyzeImageWithGemini: classifies the thrown value
into the message of the Error rethrown to the caller. -/
def mapGeminiError : Thrown → String
  | .jsError m =>
      if strContains "API key not valid" m then
        "The configured API key is invalid. Please check your setup."
      else
        "An error occurred while communicating with the API: " ++ m
  | .other => "An unexpected error occurred during image analysis."

/-- Outcome of the analyzeImageWithGemini call as the widget observes it:
a description text, or a thrown value from the inner call. -/
inductive GeminiOutcome where
  | ok (text : String)
  | thrown (t : Thrown)
deriving DecidableEq, Repr

/-- analyzeImageWithGemini as the caller sees it: the text on success, or
the rethrown Error message produced by the catch block. -/
def analyzeImageWithGemini : GeminiOutcome → Except String String
  | .ok t => Except.ok t
  | .thrown t => Except.error (mapGeminiError t)

/-- States of the ImageAnalyzer widget (Status in the source). -/
inductive AnStatus where
  | idle
  | loading
  | success
  | error
deriving DecidableEq, Repr

/-- State of the ImageAnalyzer widget: React state (file, status, result,
error), the useMemo preview URL, and the object-URL creation ledger
(flag true = revoked). -/
structure AWorld where
  file : Option Nat
  status : AnStatus
  result : String
  error : String
  previewUrl : Option Nat
  urls : List Bool
deriving DecidableEq, Repr

/-- The widget as first mounted. -/
def initAWorld : AWorld :=
  { file := none, status := .idle, result := "", error := "",
    previewUrl := none, urls := [] }

/-- handleFileChange: when a file was selected, store it and reset status,
result and error; the useMemo on file then creates a fresh preview object
URL for it (the previous one, if any, is never revoked). -/
def handleFileChange (w : AWorld) (selected : Option Nat) : AWorld :=
  match selected with
  | none => w
  | some f =>
      { w with file := some f, status := AnStatus.idle, result := "", error := "",
               previewUrl := some w.urls.length, urls := w.urls ++ [false] }

/-- handleAnalyze: a no-op without a selected file; otherwise enters
loading, then on success stores the result and enters success, and on a
thrown Error stores its message and enters error. -/
def handleAnalyze (w : AWorld) (outcome : GeminiOutcome) : AWorld :=
  match w.file with
  | none => w
  | some _ =>
      let w1 := { w with status := AnStatus.loading, result := "", error := "" }
      match analyzeImageWithGemini outcome with
      | Except.ok text => { w1 with result := text, status := AnStatus.success }
      | Except.error m => { w1 with error := m, status := AnStatus.error }

/-- handleClear: clears the file, status, result and error; the useMemo on
file recomputes the preview URL to null, but no object URL is revoked. -/
def handleClear (w : AWorld) : AWorld :=
  { w with file := none, status := AnStatus.idle, result := "", error := "",
           previewUrl := none }

/-- Running one full session from the freshly-mounted component:
request permission (with given platform outcomes), start recording,
deliver a list of data chunks, stop, deliver the finalize callback, and
start a new session. -/
def fullSessionRun (primary fallback : Option (List Bool)) (cs : List Nat) : World :=
  handleNewRecording (recorderOnStop (handleStopRecording
    (List.foldl recorderOnDataAvailable
      (handleStartRecording (handleRequestPermission initWorld primary fallback)) cs)))

/-- A sample world in the finished state: one live-created URL, duration 5,
one accumulated chunk. -/
def wFinishedSample : World :=
  { initWorld with status := RecStatus.finished, recordedVideoUrl := some 0,
                   urls := [false], duration := JSNum.num 5,
                   recordedChunks := [7], elapsedTime := 60 }

/- ### Helper lemmas -/

theorem foldDA_eq (cs : List Nat) (w : World) :
    List.foldl recorderOnDataAvailable w cs =
      { w with recordedChunks := w.recordedChunks ++ cs.filter (fun c => decide (0 < c)) } := by
  induction cs generalizing w with
  | nil => simp
  | cons c cs ih =>
      simp only [List.foldl_cons, ih, recorderOnDataAvailable]
      by_cases h : 0 < c
      · simp [h]
      · simp [h]

theorem revokeAt_getD (l : List Bool) (u : Nat) (h : u < l.length) :
    (revokeAt l u).getD u false = true := by
  induction l generalizing u with
  | nil => simp at h
  | cons b rest ih =>
      cases u with
      | zero => simp [revokeAt]
      | succ n => simpa [revokeAt] using ih n (by simpa using h)

/- ### Claims -/

/-- C9: StartRecording requires a live source handle: if no live media
stream is stored in the session, StartRecording is a silent no-op — the
state stays unchanged, no recorder is created, and no timers are armed. -/
theorem startRecording_noop_without_stream (w : World) (h : w.mediaStream = none) :
    handleStartRecording w = w := by
  simp [handleStartRecording, h]

theorem startRecording_noop_without_stream_witness :
    handleStartRecording initWorld = initWorld :=
  startRecording_noop_without_stream initWorld rfl

/-- C5 counterexample: editing the duration input to the empty string (an
edit made before recording starts) stores NaN, which is not clamped to a
minimum of 1 — the stored duration is neither 1 nor at least 1. -/
theorem durationClamp_counterexample :
    (durationInputOnChange initWorld "").duration = JSNum.nan ∧
    JSNum.geOne (durationInputOnChange initWorld "").duration = false ∧
    (durationInputOnChange initWorld "").duration ≠ JSNum.num 1 := by
  refine ⟨rfl, rfl, by decide⟩

/-- C5 (amended): for every duration-input edit whose text parses as an
integer n under parseInt base 10, the stored duration is max 1 n, hence at
least 1; in particular entering 0 or any negative value yields exactly 1.
Edits that do not parse (for example an emptied field) store NaN instead. -/
theorem durationClamp_amended (w : World) (s : String) (n : Int)
    (h : parseIntJS s = some n) :
    (durationInputOnChange w s).duration = JSNum.num (max 1 n) ∧
    JSNum.geOne (durationInputOnChange w s).duration = true ∧
    (n ≤ 0 → (durationInputOnChange w s).duration = JSNum.num 1) := by
  refine ⟨?_, ?_, ?_⟩
  · simp [durationInputOnChange, h, jsMaxOneParse]
  · simp [durationInputOnChange, h, jsMaxOneParse, JSNum.geOne, le_max_left]
  · intro hn
    have hm : max 1 n = 1 := max_eq_left (by omega)
    simp [durationInputOnChange, h, jsMaxOneParse, hm]

theorem durationClamp_amended_witness :
    (durationInputOnChange initWorld "0").duration = JSNum.num 1 :=
  (durationClamp_amended initWorld "0" 0 rfl).2.2 (by decide)

/-- C10: an edit of the duration input to a string that does not parse as
an integer (for example the empty string) stores NaN, and a subsequent
StartRecording still starts recording but arms no auto-stop timeout,
because NaN > 0 is false. -/
theorem nanDuration_no_autostop (w : World) (s : String) (i : Nat)
    (hp : parseIntJS s = none) (hs : w.mediaStream = some i) (ht : w.timer = none) :
    (durationInputOnChange w s).duration = JSNum.nan ∧
    (handleStartRecording (durationInputOnChange w s)).timer = none ∧
    (handleStartRecording (durationInputOnChange w s)).status = RecStatus.recording := by
  refine ⟨?_, ?_, ?_⟩ <;>
    simp [durationInputOnChange, hp, jsMaxOneParse, handleStartRecording, hs, ht]

theorem nanDuration_no_autostop_witness :
    (durationInputOnChange { initWorld with mediaStream := some 0 } "").duration = JSNum.nan ∧
    (handleStartRecording (durationInputOnChange
        { initWorld with mediaStream := some 0 } "")).timer = none :=
  ⟨(nanDuration_no_autostop { initWorld with mediaStream := some 0 } "" 0 rfl rfl rfl).1,
   (nanDuration_no_autostop { initWorld with mediaStream := some 0 } "" 0 rfl rfl rfl).2.1⟩

/-- C2: StopRecording has no effect unless the recorder state is
recording; when it is, calling it twice in immediate succession equals
calling it once (the first call moves the recorder to inactive), issues
exactly one stop to the recorder, enqueues exactly one finalize event,
and delivering that event produces exactly one finished artifact. -/
theorem stopRecording_idempotent (w w2 : World) (i : Nat)
    (h : w.mediaRecorder = some { streamIdx := i, st := MRecSt.recording }) :
    handleStopRecording (handleStopRecording w) = handleStopRecording w ∧
    (handleStopRecording (handleStopRecording w)).stopsIssued = w.stopsIssued + 1 ∧
    (handleStopRecording (handleStopRecording w)).pendingOnStop = w.pendingOnStop + 1 ∧
    (recorderOnStop (handleStopRecording (handleStopRecording w))).finalizeCount
      = w.finalizeCount + 1 ∧
    (recorderOnStop (handleStopRecording (handleStopRecording w))).artifacts.length
      = w.artifacts.length + 1 ∧
    ((∀ r, w2.mediaRecorder = some r → r.st ≠ MRecSt.recording) →
      handleStopRecording w2 = w2) := by
  have h1 : handleStopRecording w =
      { w with mediaRecorder := some { streamIdx := i, st := MRecSt.inactive },
               stopsIssued := w.stopsIssued + 1,
               pendingOnStop := w.pendingOnStop + 1,
               timer := none } := by
    simp [handleStopRecording, h]
  have h2 : handleStopRecording (handleStopRecording w) = handleStopRecording w := by
    rw [h1]; simp [handleStopRecording]
  refine ⟨h2, ?_, ?_, ?_, ?_, ?_⟩
  · rw [h2, h1]
  · rw [h2, h1]
  · rw [h2, h1]; simp [recorderOnStop]
  · rw [h2, h1]; simp [recorderOnStop]
  · intro hr
    match hw2 : w2.mediaRecorder with
    | none => simp [handleStopRecording, hw2]
    | some r => simp [handleStopRecording, hw2, hr r hw2]

theorem stopRecording_idempotent_witness :
    handleStopRecording (handleStopRecording
        { initWorld with status := RecStatus.recording, mediaStream := some 0,
                         acquired := [[true]],
                         mediaRecorder := some { streamIdx := 0, st := MRecSt.recording } })
      = handleStopRecording
        { initWorld with status := RecStatus.recording, mediaStream := some 0,
                         acquired := [[true]],
                         mediaRecorder := some { streamIdx := 0, st := MRecSt.recording } } ∧
    (handleStopRecording (handleStopRecording
        { initWorld with status := RecStatus.recording, mediaStream := some 0,
                         acquired := [[true]],
                         mediaRecorder := some { streamIdx := 0, st := MRecSt.recording } })).stopsIssued = 1 :=
  ⟨(stopRecording_idempotent
      { initWorld with status := RecStatus.recording, mediaStream := some 0,
                       acquired := [[true]],
                       mediaRecorder := some { streamIdx := 0, st := MRecSt.recording } }
      initWorld 0 rfl).1,
   (stopRecording_idempotent
      { initWorld with status := RecStatus.recording, mediaStream := some 0,
                       acquired := [[true]],
                       mediaRecorder := some { streamIdx := 0, st := MRecSt.recording } }
      initWorld 0 rfl).2.1⟩

/-- C4: RequestPermission from idle first requests the environment camera
plus microphone; exactly when that request is rejected it makes one
fallback request for any camera plus microphone. If either request
succeeds it stores the live stream and moves to ready; if both fail it
sets the user-facing error message and returns to idle with no stored
stream. -/
theorem requestPermission_fallback (w : World) (primary fallback : Option (List Bool))
    (hidle : w.status = RecStatus.idle) (hms : w.mediaStream = none) :
    (∀ ts, primary = some ts →
       (handleRequestPermission w primary fallback).gumLog
           = w.gumLog ++ [GUMRequest.envFacingAudio] ∧
       (handleRequestPermission w primary fallback).mediaStream = some w.acquired.length ∧
       (handleRequestPermission w primary fallback).acquired = w.acquired ++ [ts] ∧
       (handleRequestPermission w primary fallback).status = RecStatus.ready) ∧
    (∀ ts, primary = none → fallback = some ts →
       (handleRequestPermission w primary fallback).gumLog
           = w.gumLog ++ [GUMRequest.envFacingAudio, GUMRequest.anyVideoAudio] ∧
       (handleRequestPermission w primary fallback).mediaStream = some w.acquired.length ∧
       (handleRequestPermission w primary fallback).acquired = w.acquired ++ [ts] ∧
       (handleRequestPermission w primary fallback).status = RecStatus.ready) ∧
    (primary = none → fallback = none →
       (handleRequestPermission w primary fallback).gumLog
           = w.gumLog ++ [GUMRequest.envFacingAudio, GUMRequest.anyVideoAudio] ∧
       (handleRequestPermission w primary fallback).status = RecStatus.idle ∧
       (handleRequestPermission w primary fallback).mediaStream = none ∧
       (handleRequestPermission w primary fallback).error = some permissionErrorMsg) := by
  clear hidle
  refine ⟨?_, ?_, ?_⟩
  · rintro ts rfl
    simp [handleRequestPermission]
  · rintro ts rfl rfl
    simp [handleRequestPermission]
  · rintro rfl rfl
    simp [handleRequestPermission, hms]

theorem requestPermission_fallback_witness :
    (handleRequestPermission initWorld (some [true]) none).status = RecStatus.ready ∧
    (handleRequestPermission initWorld (some [true]) none).mediaStream = some 0 ∧
    (handleRequestPermission initWorld (some [true]) none).gumLog
      = [GUMRequest.envFacingAudio] :=
  ⟨((requestPermission_fallback initWorld (some [true]) none rfl rfl).1 [true] rfl).2.2.2,
   ((requestPermission_fallback initWorld (some [true]) none rfl rfl).1 [true] rfl).2.1,
   ((requestPermission_fallback initWorld (some [true]) none rfl rfl).1 [true] rfl).1⟩

/-- C1: after RequestPermission (either attempt succeeding), then
StartRecording, then any chunk deliveries, then StopRecording with its
finalize callback delivered, then NewSession, the session holds no live
stream (mediaStream is none and every acquired track is stopped) and no
retained artifact locator (every created object URL is revoked and the
stored locator is none). -/
theorem newSession_no_leak (primary fallback : Option (List Bool)) (cs : List Nat)
    (hsucc : (∃ ts, primary = some ts) ∨ (primary = none ∧ ∃ ts, fallback = some ts)) :
    (fullSessionRun primary fallback cs).mediaStream = none ∧
    (∀ s ∈ (fullSessionRun primary fallback cs).acquired, ∀ b ∈ s, b = false) ∧
    (fullSessionRun primary fallback cs).recordedVideoUrl = none ∧
    (∀ u ∈ (fullSessionRun primary fallback cs).urls, u = true) := by
  rcases hsucc with ⟨ts, rfl⟩ | ⟨rfl, ts, rfl⟩ <;>
  · simp [fullSessionRun, handleRequestPermission, initWorld, handleStartRecording,
          foldDA_eq, handleStopRecording, recorderOnStop, handleNewRecording,
          stopTracksAt, revokeAt, List.mem_map]

theorem newSession_no_leak_witness :
    (fullSessionRun (some [true, true]) none [5]).mediaStream = none ∧
    (fullSessionRun (some [true, true]) none [5]).recordedVideoUrl = none :=
  ⟨(newSession_no_leak (some [true, true]) none [5] (Or.inl ⟨[true, true], rfl⟩)).1,
   (newSession_no_leak (some [true, true]) none [5] (Or.inl ⟨[true, true], rfl⟩)).2.2.1⟩

/-- C3: with a live stream, StartRecording arms the one-shot auto-stop
timeout exactly when the stored duration is a number n with n > 0, with
deadline n * 60 * 1000 milliseconds from now (none is armed for a
non-positive or NaN duration); the timeout never fires before its
deadline, at the deadline it invokes StopRecording, after firing during
recording it is disarmed so it cannot fire again, and a manual
StopRecording during recording also disarms it. -/
theorem autoStop_oneShot (w wr wf : World) (i : Nat) (n : Int)
    (hs : w.mediaStream = some i) (ht : w.timer = none) :
    (w.duration = JSNum.num n → 0 < n →
        (handleStartRecording w).timer = some (w.now + n.toNat * 60 * 1000)) ∧
    (w.duration = JSNum.num n → n ≤ 0 → (handleStartRecording w).timer = none) ∧
    (w.duration = JSNum.nan → (handleStartRecording w).timer = none) ∧
    (∀ t, wr.timer = some t → wr.now < t → autoStopTimerFire wr = wr) ∧
    (∀ t, wr.timer = some t → t ≤ wr.now → autoStopTimerFire wr = handleStopRecording wr) ∧
    (∀ t j, wf.timer = some t → t ≤ wf.now →
        wf.mediaRecorder = some { streamIdx := j, st := MRecSt.recording } →
        (autoStopTimerFire wf).timer = none ∧
        autoStopTimerFire (autoStopTimerFire wf) = autoStopTimerFire wf) ∧
    (∀ j, wr.mediaRecorder = some { streamIdx := j, st := MRecSt.recording } →
        (handleStopRecording wr).timer = none) := by
  refine ⟨?_, ?_, ?_, ?_, ?_, ?_, ?_⟩
  · intro hd hn
    simp [handleStartRecording, hs, hd, hn]
  · intro hd hn
    simp [handleStartRecording, hs, hd, ht, not_lt.mpr hn]
  · intro hd
    simp [handleStartRecording, hs, hd, ht]
  · intro t htm hlt
    simp [autoStopTimerFire, htm, not_le.mpr hlt]
  · intro t htm hle
    simp [autoStopTimerFire, htm, hle]
  · intro t j htm hle hr
    have hfire : autoStopTimerFire wf = handleStopRecording wf := by
      simp [autoStopTimerFire, htm, hle]
    have hstop : (handleStopRecording wf).timer = none := by
      simp [handleStopRecording, hr]
    refine ⟨by rw [hfire]; exact hstop, ?_⟩
    rw [hfire]
    simp [autoStopTimerFire, hstop]
  · intro j hr
    simp [handleStopRecording, hr]

theorem autoStop_oneShot_witness :
    (handleStartRecording { initWorld with mediaStream := some 0 }).timer = some 60000 :=
  (autoStop_oneShot { initWorld with mediaStream := some 0 } initWorld initWorld 0 1
      rfl rfl).1 rfl (by decide)

/-- C6 counterexample: selecting a file and then invoking the clear action
does reset the widget to idle, but the preview object URL created for the
selected file is not revoked — the created locator remains live in the
URL ledger. -/
theorem clear_no_revoke_counterexample :
    (handleClear (handleFileChange initAWorld (some 0))).status = AnStatus.idle ∧
    (handleClear (handleFileChange initAWorld (some 0))).file = none ∧
    (handleClear (handleFileChange initAWorld (some 0))).result = "" ∧
    (handleClear (handleFileChange initAWorld (some 0))).error = "" ∧
    (handleClear (handleFileChange initAWorld (some 0))).urls = [false] :=
  ⟨rfl, rfl, rfl, rfl, rfl⟩

/-- C6 (amended): the clear action, invoked from any state, resets the
widget to idle with file, result and error cleared and drops the preview
reference, but it does not revoke any preview object URL: the URL ledger
is left unchanged. -/
theorem clear_resets_without_revoking (w : AWorld) :
    handleClear w = { w with file := none, status := AnStatus.idle, result := "",
                             error := "", previewUrl := none } ∧
    (handleClear w).urls = w.urls :=
  ⟨rfl, rfl⟩

theorem clear_resets_without_revoking_witness :
    (handleClear (handleFileChange initAWorld (some 0))).urls
      = (handleFileChange initAWorld (some 0)).urls :=
  (clear_resets_without_revoking (handleFileChange initAWorld (some 0))).2

/-- C7 counterexample: NewSession from a finished world with accumulated
chunk list [7] and target duration 5 leaves both untouched: the
accumulated fragment sequence and the target duration are not cleared. -/
theorem newRecording_keeps_chunks_counterexample :
    (handleNewRecording wFinishedSample).recordedChunks = [7] ∧
    (handleNewRecording wFinishedSample).recordedChunks ≠ [] ∧
    (handleNewRecording wFinishedSample).duration = JSNum.num 5 ∧
    (handleNewRecording wFinishedSample).duration ≠ JSNum.num 1 := by
  refine ⟨rfl, by decide, rfl, by decide⟩

/-- C7 (amended): NewSession from finished revokes the previous artifact
locator, clears the stored locator, the error message and the elapsed-time
counter, and transitions to idle; the accumulated fragment sequence and
the target duration are left unchanged (the fragments are only reset by
the next StartRecording). -/
theorem newRecording_amended (w : World) (u : Nat)
    (hst : w.status = RecStatus.finished) (hurl : w.recordedVideoUrl = some u)
    (hu : u < w.urls.length) :
    (handleNewRecording w).urls.getD u false = true ∧
    (handleNewRecording w).recordedVideoUrl = none ∧
    (handleNewRecording w).status = RecStatus.idle ∧
    (handleNewRecording w).error = none ∧
    (handleNewRecording w).elapsedTime = 0 ∧
    (handleNewRecording w).duration = w.duration ∧
    (handleNewRecording w).recordedChunks = w.recordedChunks := by
  clear hst
  refine ⟨?_, ?_, ?_, ?_, ?_, ?_, ?_⟩
  · simpa [handleNewRecording, hurl] using revokeAt_getD w.urls u hu
  all_goals simp [handleNewRecording, hurl]

theorem newRecording_amended_witness :
    (handleNewRecording wFinishedSample).urls.getD 0 false = true ∧
    (handleNewRecording wFinishedSample).recordedVideoUrl = none ∧
    (handleNewRecording wFinishedSample).duration = wFinishedSample.duration :=
  ⟨(newRecording_amended wFinishedSample 0 rfl rfl (by decide)).1,
   (newRecording_amended wFinishedSample 0 rfl rfl (by decide)).2.1,
   (newRecording_amended wFinishedSample 0 rfl rfl (by decide)).2.2.2.2.2.1⟩

/-- C8: when the inner call throws an Error whose message contains
API key not valid, Analyze puts the widget in state error with the
message exactly The configured API key is invalid. Please check your
setup.; any other thrown Error yields state error with the underlying
message surfaced inside the communication-error wrapper. -/
theorem analyze_error_classification (w : AWorld) (f : Nat) (m : String)
    (hf : w.file = some f) :
    (strContains "API key not valid" m = true →
       (handleAnalyze w (GeminiOutcome.thrown (Thrown.jsError m))).status = AnStatus.error ∧
       (handleAnalyze w (GeminiOutcome.thrown (Thrown.jsError m))).error =
         "The configured API key is invalid. Please check your setup.") ∧
    (strContains "API key not valid" m = false →
       (handleAnalyze w (GeminiOutcome.thrown (Thrown.jsError m))).status = AnStatus.error ∧
       (handleAnalyze w (GeminiOutcome.thrown (Thrown.jsError m))).error =
         "An error occurred while communicating with the API: " ++ m) := by
  constructor
  · intro hc
    constructor <;>
      simp [handleAnalyze, hf, analyzeImageWithGemini, mapGeminiError, hc]
  · intro hc
    constructor <;>
      simp [handleAnalyze, hf, analyzeImageWithGemini, mapGeminiError, hc]

theorem analyze_error_classification_witness :
    (handleAnalyze (handleFileChange initAWorld (some 0))
        (GeminiOutcome.thrown (Thrown.jsError "API key not valid"))).error =
      "The configured API key is invalid. Please check your setup." ∧
    (handleAnalyze (handleFileChange initAWorld (some 0))
        (GeminiOutcome.thrown (Thrown.jsError "boom"))).error =
      "An error occurred while communicating with the API: boom" :=
  ⟨((analyze_error_classification (handleFileChange initAWorld (some 0)) 0
        "API key not valid" rfl).1 rfl).2,
   ((analyze_error_classification (handleFileChange initAWorld (some 0)) 0
        "boom" rfl).2 rfl).2⟩
